import Mathlib

/-!
Verification development for the `submit_speed_to_form` repository.

The repository is a small Python system that periodically measures network
throughput and submits the measurement to a remote Google-Form endpoint.
This file gives a shallow embedding of its core functions, translated from
`src/submit_speed_and_send_official_autorun_v2.py` (the v2 autorun program)
and `src/submit_speed_and_send_autorun.py` (the earlier autorun variant),
and proves or refutes the frozen claims about them.

Modelling conventions:
* Python floats are modelled as exact rationals (`ℚ`); `round(x, 2)` is
  modelled as rounding to two decimal places (half-up at exact ties; Python
  uses banker's rounding on binary floats, but no claim depends on tie
  behaviour and all concrete inputs used here are tie-free).
* Python dicts used as form payloads are modelled as insertion-ordered
  association lists with Python's update semantics (`dictSet`).
* Network and subprocess effects are modelled as explicit function
  parameters (`post`, attempt oracles): a Python call that may raise is a
  Lean function returning `Except String _`, the error being `str(e)`.
* Wall-clock time is modelled in whole seconds (`Nat`), days of 86400
  seconds; `datetime.now()` is the interpreter's current time and
  `time.sleep` advances it by at least the requested amount (an oracle
  supplies the oversleep, which models host suspension).
-/

/-- Python `round(x, 2)` on exact rationals: round to 2 decimal places. -/
def round2 (x : ℚ) : ℚ := (Int.floor (x * 100 + 1/2) : ℚ) / 100

/-- Rendering of a Python number into a form-field string (`f"{x}"`).
The exact digit string of Python's float repr is irrelevant to every claim;
what matters is that the same rendering function is used everywhere. -/
def qstr (x : ℚ) : String := toString x

/-- Python `s[:n]` on strings: the first `n` characters (codepoints). -/
def strTake (s : String) (n : Nat) : String := String.mk (s.data.take n)

/-- Python `sub in s` substring test. -/
def strContains (s sub : String) : Bool := decide (sub.data <:+: s.data)

/-- A form payload: insertion-ordered key → value pairs (a Python dict). -/
abbrev Payload := List (String × String)

/-- Python `d[k] = v`: replace in place if the key exists (keeping its
position), else append at the end. -/
def dictSet : Payload → String → String → Payload
  | [], k, v => [(k, v)]
  | kv :: rest, k, v => if kv.1 == k then (k, v) :: rest else kv :: dictSet rest k v

/-- Python `d.update(e)`: `dictSet` each pair of `e` in order. -/
def dictUpdate (d : Payload) (e : Payload) : Payload :=
  e.foldl (fun acc kv => dictSet acc kv.1 kv.2) d

/-- Python `d.get(k)` / `d[k]` lookup. -/
def dictGet (d : Payload) (k : String) : Option String :=
  (d.find? (fun kv => kv.1 == k)).map (fun kv => kv.2)

/-- A speed measurement as produced by `measure_speed_*`:
the dict `{"download": …, "upload": …, "ping": …, "server": …, "ip": …}`. -/
structure SpeedResults where
  download : ℚ
  upload : ℚ
  ping : ℚ
  server : String
  ip : String
deriving DecidableEq, Repr

/-- The static site identity configuration (module-level constants of the
Python scripts). -/
structure SiteConfig where
  school_code : String
  sector : String
  school_name : String
  provider : String
  line_number : String
  service_type : String
  device_name : String
deriving DecidableEq, Repr

/-- The pre-filled constants of `submit_speed_and_send_official_autorun_v2.py`. -/
def defaultConfig : SiteConfig :=
  { school_code := "1561"
    sector := "السيب"
    school_name := "مدرسة ابو القاسم الزهراوي"
    provider := "عمانتل"
    line_number := "24424428"
    service_type := "فايبر"
    device_name := "Device" }

def ALLOWED_SECTORS : List String :=
  ["مسقط", "قريات", "السيب", "العامرات", "بوشر", "مطرح"]

def ALLOWED_PROVIDERS : List String := ["عمانتل", "أوريدو", "أواصر"]

def ALLOWED_SERVICE_TYPES : List String := ["فايبر", "الجيل الخامس 5 G"]

/-! ### Fallback CLI measurement (`measure_speed_cli`, v2 lines 121–154)

The subprocess call itself is I/O; what is modelled is the parsing and unit
normalisation applied to its JSON output.  The two accepted schemas are the
flat speedtest-cli one (bits/second) and the nested Ookla one
(`"type": "result"`, bandwidth in bytes/second). -/

/-- The JSON shapes `measure_speed_cli` accepts, with the fields it reads. -/
inductive CliOutput where
  | flat (download upload ping : ℚ) (server ip : String)
  | ookla (dlBandwidth ulBandwidth latency : ℚ) (server ip : String)
deriving DecidableEq, Repr

/-- The normalisation `measure_speed_cli` applies to a parsed JSON document
(v2 lines 130–147).  Flat schema: value / 1 000 000.  Ookla schema:
download `dl * 8 / 1 000 000` but upload `ul * 8 * 8 / 1 000 000` (the
double scaling is in the source).  The Ookla branch requires truthy
`dl`/`ul` (`if dl and ul and ping_ms is not None`). -/
def parse_cli_output : CliOutput → Option SpeedResults
  | .flat d u p s ip =>
      some ⟨round2 (d / 1000000), round2 (u / 1000000), round2 p, s, ip⟩
  | .ookla dl ul lat s ip =>
      if dl ≠ 0 ∧ ul ≠ 0 then
        some ⟨round2 (dl * 8 / 1000000), round2 (ul * 8 * 8 / 1000000),
              round2 lat, s, ip⟩
      else none

/-! ### Primary in-process measurement (`measure_speed_python`, v2 lines 81–119) -/

/-- Outcome of one `speedtest.Speedtest(secure=True)` attempt: either a
result dict or a raised exception with message `str(e)`. -/
inductive AttemptResult where
  | ok (r : SpeedResults)
  | err (msg : String)
deriving DecidableEq, Repr

/-- The transient-failure classification of v2 line 112:
`"403" in msg or "ConfigRetrievalError" in msg`. -/
def transientErr (msg : String) : Bool :=
  strContains msg "403" || strContains msg "ConfigRetrievalError"

/-- The sleep performed after a failed attempt (v2 lines 112–118):
`backoff * attempt` seconds for a transient failure, else 5 seconds. -/
def attemptWait (backoff attempt : Nat) (msg : String) : Nat :=
  if transientErr msg then backoff * attempt else 5

/-- Instrumented outcome of `measure_speed_python`: its return value or the
re-raised last error, the sleeps it performed, and how many attempts ran. -/
structure PyRun where
  result : Except (Option String) SpeedResults
  waits : List Nat
  attemptsUsed : Nat

/-- The retry loop of `measure_speed_python` (v2 lines 88–119).  `attempt`
is 1-based as in the source; `remaining` counts the attempts left; `acc`
collects the sleeps (reversed); `lastErr` is the `last_err` variable.
Exhausting the budget raises `last_err` (v2 line 119). -/
def pyLoop (oracle : Nat → AttemptResult) (backoff : Nat) :
    Nat → Nat → List Nat → Option String → PyRun
  | attempt, 0, acc, lastErr => ⟨.error lastErr, acc.reverse, attempt - 1⟩
  | attempt, r + 1, acc, lastErr =>
    match oracle attempt with
    | .ok res => ⟨.ok res, acc.reverse, attempt⟩
    | .err m =>
        pyLoop oracle backoff (attempt + 1) r
          (attemptWait backoff attempt m :: acc) (some m)

/-- `measure_speed_python(max_attempts, backoff)` with the attempt outcomes
supplied by `oracle` (attempt numbers 1, 2, …). -/
def measure_speed_python (oracle : Nat → AttemptResult)
    (max_attempts backoff : Nat) : PyRun :=
  pyLoop oracle backoff 1 max_attempts [] none

/-! ### Composed measurement (`measure_speed`, v2 lines 156–161) -/

/-- Instrumented outcome of `measure_speed`: the measurement (or the error
raised by the CLI fallback) and whether the fallback was invoked. -/
structure MeasureRun where
  result : Except String SpeedResults
  usedFallback : Bool

/-- `measure_speed` (v2 lines 156–161): try `measure_speed_python()` (with
its default `max_attempts=3, backoff=20`); on any exception fall back to
`measure_speed_cli()`, whose outcome is the parameter `cli`. -/
def measure_speed (oracle : Nat → AttemptResult)
    (cli : Except String SpeedResults) : MeasureRun :=
  match (measure_speed_python oracle 3 20).result with
  | .ok r => ⟨.ok r, false⟩
  | .error _ => ⟨cli, true⟩

/-! ### Official form wiring (v2 lines 43–78) -/

def ENTRY_SECTOR_ID : String := "entry.1313908626"
def ENTRY_PROVIDER_ID : String := "entry.927675658"
def ENTRY_SERVICE_TYPE_ID : String := "entry.66731299"

/-- `ENTRY_TEXT_IDS` (v2 lines 57–64). -/
def ENTRY_TEXT_IDS : Payload :=
  [("Q1_school_code", "entry.899161738"),
   ("X_A", "entry.560537791"),
   ("X_B", "entry.1862560773"),
   ("X_C", "entry.181224386"),
   ("X_D", "entry.556952249")]

/-- `ENTRY_TEXT_IDS[k]`.  Every key used by the program is present, so the
`KeyError` case cannot arise; a missing key is mapped to `""`. -/
def entryTextId (k : String) : String := (dictGet ENTRY_TEXT_IDS k).getD ""

/-- One candidate mapping from the four logical text questions to the four
opaque field names `X_A … X_D` (an element of `TEXT_MAPPING_TRIES`). -/
structure TextMapping where
  Q3_school_name : String
  Q5_line_number : String
  Q7_internet_speed : String
  Q8_notes : String
deriving DecidableEq, Repr

/-- `TEXT_MAPPING_TRIES` (v2 lines 67–71), in source order. -/
def TEXT_MAPPING_TRIES : List TextMapping :=
  [⟨"X_A", "X_B", "X_C", "X_D"⟩,
   ⟨"X_A", "X_B", "X_D", "X_C"⟩,
   ⟨"X_B", "X_A", "X_C", "X_D"⟩]

/-- A hidden-parameter candidate set. -/
abbrev Hidden := Payload

/-- `HIDDEN_CANDIDATES` (v2 lines 74–77), in source order. -/
def HIDDEN_CANDIDATES : List Hidden :=
  [[], [("fbzx", "8122308104194036559")]]

/-- `HIDDEN_ALWAYS` (v2 line 78). -/
def HIDDEN_ALWAYS : Payload := [("fvv", "1"), ("pageHistory", "0")]

/-! ### Payload building and submission (v2 lines 182–247) -/

/-- The notes text of `build_payload_base` (v2 lines 190–198), a fixed
format string over the measurement, the device name and the timestamp. -/
def notesText (cfg : SiteConfig) (r : SpeedResults) (ts : String) : String :=
  "تنزيل: " ++ qstr r.download ++ " Mbps | " ++
  "رفع: " ++ qstr r.upload ++ " Mbps | " ++
  "Ping: " ++ qstr r.ping ++ " ms | " ++
  "السيرفر: " ++ r.server ++ " | " ++
  "IP: " ++ r.ip ++ " | " ++
  "الجهاز: " ++ cfg.device_name ++ " | " ++
  "التاريخ/الوقت: " ++ ts

/-- The `base` dict of `build_payload_base` (v2 lines 200–205). -/
def basePayload (cfg : SiteConfig) : Payload :=
  [("entry.899161738", cfg.school_code),
   (ENTRY_SECTOR_ID, cfg.sector),
   (ENTRY_PROVIDER_ID, cfg.provider),
   (ENTRY_SERVICE_TYPE_ID, cfg.service_type)]

/-- `build_payload_base` (v2 lines 182–207): validate the three enum
fields, raising `ValueError` on a violation, then return the base payload
and the notes text. -/
def build_payload_base (cfg : SiteConfig) (r : SpeedResults) (ts : String) :
    Except String (Payload × String) :=
  if cfg.sector ∉ ALLOWED_SECTORS then
    .error ("Invalid sector '" ++ cfg.sector ++ "'")
  else if cfg.provider ∉ ALLOWED_PROVIDERS then
    .error ("Invalid provider '" ++ cfg.provider ++ "'")
  else if cfg.service_type ∉ ALLOWED_SERVICE_TYPES then
    .error ("Invalid service type '" ++ cfg.service_type ++ "'")
  else
    .ok (basePayload cfg, notesText cfg r ts)

/-- The payload assembled by `try_submit_with_mapping` (v2 lines 216–222)
for one `(mapping, hidden)` candidate: the base fields, the four mapped
text fields, then `HIDDEN_ALWAYS` and the hidden extras. -/
def assemblePayload (cfg : SiteConfig) (m : TextMapping) (hidden : Hidden)
    (r : SpeedResults) (ts : String) : Payload :=
  let p := basePayload cfg
  let p := dictSet p (entryTextId m.Q3_school_name) cfg.school_name
  let p := dictSet p (entryTextId m.Q5_line_number) cfg.line_number
  let p := dictSet p (entryTextId m.Q7_internet_speed) (qstr r.download ++ " Mbps")
  let p := dictSet p (entryTextId m.Q8_notes) (notesText cfg r ts)
  dictUpdate (dictUpdate p HIDDEN_ALWAYS) hidden

/-- `try_submit_with_mapping` (v2 lines 209–231).  `post` is the
`requests.post` call: it returns the response `(status_code, text)` or
raises a transport exception, which this function does **not** catch.
It returns `(status in (200, 302), status_code, text[:500])`. -/
def try_submit_with_mapping (cfg : SiteConfig)
    (post : Payload → Except String (Nat × String))
    (m : TextMapping) (hidden : Hidden) (r : SpeedResults) (ts : String) :
    Except String (Bool × Nat × String) := do
  let _ ← build_payload_base cfg r ts
  let resp ← post (assemblePayload cfg m hidden r ts)
  .ok ((resp.1 == 200 || resp.1 == 302), resp.1, strTake resp.2 500)

/-- The return value of `submit_official`, with an added `attempts` journal
recording every `(mapping, hidden)` combination actually tried, in order. -/
structure SubOut where
  ok : Bool
  code : Option Nat
  preview : String
  usedMapping : Option TextMapping
  usedHidden : Option Hidden
  attempts : List (TextMapping × Hidden)

/-- The inner `for hidden in HIDDEN_CANDIDATES` loop of `submit_official`
(v2 lines 239–246) for one mapping: returns the successful outcome, or the
updated `last_status` and attempt journal when every hidden set failed. -/
def submitInner (att : TextMapping → Hidden → Except String (Bool × Nat × String))
    (m : TextMapping) :
    List Hidden → (Option Nat × String) → List (TextMapping × Hidden) →
    Except String (SubOut ⊕ ((Option Nat × String) × List (TextMapping × Hidden)))
  | [], last, tried => .ok (.inr (last, tried))
  | h :: hs, last, tried => do
    let res ← att m h
    if res.1 then
      .ok (.inl ⟨true, some res.2.1, res.2.2, some m, some h, tried ++ [(m, h)]⟩)
    else
      submitInner att m hs (some res.2.1, res.2.2) (tried ++ [(m, h)])

/-- The outer `for mapping in TEXT_MAPPING_TRIES` loop of `submit_official`
(v2 lines 238–247). -/
def submitOuter (att : TextMapping → Hidden → Except String (Bool × Nat × String)) :
    List TextMapping → (Option Nat × String) → List (TextMapping × Hidden) →
    Except String SubOut
  | [], last, tried => .ok ⟨false, last.1, last.2, none, none, tried⟩
  | m :: ms, last, tried => do
    match ← submitInner att m HIDDEN_CANDIDATES last tried with
    | .inl out => .ok out
    | .inr acc => submitOuter att ms acc.1 acc.2

/-- `submit_official` (v2 lines 233–247): try all mapping × hidden
combinations, `last_status` starting as `(False, None, "")`. -/
def submit_official (cfg : SiteConfig)
    (post : Payload → Except String (Nat × String))
    (r : SpeedResults) (ts : String) : Except String SubOut :=
  submitOuter (fun m h => try_submit_with_mapping cfg post m h r ts)
    TEXT_MAPPING_TRIES (none, "") []

/-- The mapping × hidden cross-product in the iteration order of
`submit_official`: outer loop over `TEXT_MAPPING_TRIES`, inner loop over
`HIDDEN_CANDIDATES`. -/
def comboList : List (TextMapping × Hidden) :=
  TEXT_MAPPING_TRIES.flatMap (fun m => HIDDEN_CANDIDATES.map (fun h => (m, h)))

/-! ### The earlier autorun variant (`submit_speed_and_send_autorun.py`)

Only the parts cited by the claims are embedded: `build_payload`
(lines 103–132) and `submit_form` (lines 134–153). -/

namespace Autorun

def ENTRY_IDS : Payload :=
  [("school_code", "entry.413551861"),
   ("sector", "entry.2132382965"),
   ("school_name", "entry.256332732"),
   ("provider", "entry.1818381540"),
   ("line_number", "entry.1211366125"),
   ("service_type", "entry.230321102"),
   ("internet_speed", "entry.1693223006"),
   ("notes", "entry.1576525453")]

def entryId (k : String) : String := (dictGet ENTRY_IDS k).getD ""

def HIDDEN_BASE : Payload :=
  [("fvv", "1"), ("pageHistory", "0"), ("fbzx", "-7716787293459453204")]

/-- The autorun variant's service-type enumeration differs from v2's
(`"الجيل الخامس G 5"` instead of `"الجيل الخامس 5 G"`). -/
def ALLOWED_SERVICE_TYPES' : List String := ["فايبر", "الجيل الخامس G 5"]

/-- `build_payload` (autorun lines 103–132): validate the enum fields, then
build the full payload dict and update it with `HIDDEN_BASE`. -/
def build_payload (cfg : SiteConfig) (r : SpeedResults) (ts : String) :
    Except String Payload :=
  if cfg.sector ∉ ALLOWED_SECTORS then
    .error ("Invalid sector '" ++ cfg.sector ++ "'")
  else if cfg.provider ∉ ALLOWED_PROVIDERS then
    .error ("Invalid provider '" ++ cfg.provider ++ "'")
  else if cfg.service_type ∉ ALLOWED_SERVICE_TYPES' then
    .error ("Invalid service type '" ++ cfg.service_type ++ "'")
  else
    .ok (dictUpdate
      [(entryId "school_code", cfg.school_code),
       (entryId "sector", cfg.sector),
       (entryId "school_name", cfg.school_name),
       (entryId "provider", cfg.provider),
       (entryId "line_number", cfg.line_number),
       (entryId "service_type", cfg.service_type),
       (entryId "internet_speed", qstr r.download ++ " Mbps"),
       (entryId "notes", notesText cfg r ts)]
      HIDDEN_BASE)

/-- The `for variant in variants` loop of `submit_form` (lines 144–153):
a transport exception is caught inside the loop (`last_preview = str(e)`)
and the next variant is tried. -/
def submitFormGo (post : Payload → Except String (Nat × String)) :
    List Payload → Option Nat → String → Bool × Option Nat × String
  | [], lastCode, lastPrev => (false, lastCode, lastPrev)
  | v :: vs, lastCode, lastPrev =>
    match post v with
    | .ok resp =>
        if resp.1 == 200 || resp.1 == 302 then
          (true, some resp.1, strTake resp.2 500)
        else
          submitFormGo post vs (some resp.1) (strTake resp.2 500)
    | .error e => submitFormGo post vs lastCode e

/-- `submit_form` (autorun lines 134–153): try the payload as given, then
with the `fbzx` key removed; any 200/302 response is a success. -/
def submit_form (post : Payload → Except String (Nat × String))
    (payload : Payload) : Bool × Option Nat × String :=
  submitFormGo post
    [payload, payload.filter (fun kv => !(kv.1 == "fbzx"))] none ""

end Autorun

/-! ### One run (`run_once`, v2 lines 250–277) -/

/-- Observable side effects of `run_once`, in execution order:
the measurement result, the `ensure_log_header` call, the completed
`submit_official` call, and the `append_log` of the CSV row. -/
inductive RunEvent where
  | measured (r : SpeedResults)
  | ensuredHeader
  | submitted (ok : Bool) (code : Option Nat)
  | appended (row : List String)
deriving DecidableEq, Repr

/-- `str(x)` for an optional value, Python printing `None` for `None`. -/
def pyOptStr (o : Option String) : String :=
  match o with
  | none => "None"
  | some s => s

/-- `str(code)` for the HTTP code slot of `FAIL({code})`. -/
def pyOptNatStr (o : Option Nat) : String :=
  match o with
  | none => "None"
  | some n => toString n

/-- A rendering of `str(mapping_dict)`; the exact Python dict repr is not
claim-relevant, only which mapping is recorded. -/
def mappingStr (m : TextMapping) : String :=
  "\x7b" ++ m.Q3_school_name ++ "," ++ m.Q5_line_number ++ "," ++
  m.Q7_internet_speed ++ "," ++ m.Q8_notes ++ "\x7d"

/-- A rendering of `str(hidden_dict)`. -/
def hiddenStr (h : Hidden) : String :=
  "\x7b" ++ String.intercalate "," (h.map (fun kv => kv.1 ++ ":" ++ kv.2)) ++ "\x7d"

/-- The CSV row appended by `run_once` (v2 lines 265–271). -/
def logRow (cfg : SiteConfig) (r : SpeedResults) (ts label statusTxt : String)
    (out : SubOut) : List String :=
  [ts, qstr r.download, qstr r.upload, qstr r.ping,
   r.server, r.ip, cfg.device_name,
   cfg.school_code, cfg.sector, cfg.school_name,
   cfg.provider, cfg.line_number, cfg.service_type, label, statusTxt,
   pyOptStr (out.usedMapping.map mappingStr),
   pyOptStr (out.usedHidden.map hiddenStr)]

/-- `run_once` (v2 lines 250–277): measure, ensure the CSV header, submit,
append one outcome row.  The result is the list of performed side effects
together with the exception that escaped `run_once`, if any.  There is no
`try`/`except` anywhere in `run_once`: a measurement or submission
exception propagates to the caller, and nothing is appended for it. -/
def run_once (cfg : SiteConfig) (measure : Except String SpeedResults)
    (post : Payload → Except String (Nat × String)) (ts label : String) :
    List RunEvent × Option String :=
  match measure with
  | .error e => ([], some e)
  | .ok r =>
    match submit_official cfg post r ts with
    | .error e => ([.measured r, .ensuredHeader], some e)
    | .ok out =>
      let statusTxt := if out.ok then "SUCCESS"
                       else "FAIL(" ++ pyOptNatStr out.code ++ ")"
      ([.measured r, .ensuredHeader, .submitted out.ok out.code,
        .appended (logRow cfg r ts label statusTxt out)], none)

/-! ### The scheduler loop (`loop_scheduler`, v2 lines 288–329)

Time is whole seconds; `dayOf t = t / 86400` is `date.today()` and
`t % 86400` the wall-clock time of day.  The loop is interpreted over an
environment supplying, per call index, the oversleep of each `time.sleep`
(0 for an exact sleep; large for a host suspension) and the duration and
raised exception (if any) of each `run_once` call.  `run_once` itself is
modelled in detail above; at this layer only its duration and whether it
raised are relevant, and the journal records each firing. -/

def secPerDay : Nat := 86400

/-- `date.today()` of a time in seconds. -/
def dayOf (t : Nat) : Nat := t / secPerDay

/-- One `(label, hour, minute)` entry of `SCHEDULES`. -/
structure SlotSpec where
  label : String
  hour : Nat
  minute : Nat
deriving DecidableEq, Repr

instance : Inhabited SlotSpec := ⟨⟨"", 0, 0⟩⟩

/-- `SCHEDULES = [("07:00", 7, 0), ("13:30", 13, 30)]` (v2 line 38). -/
def SCHEDULES : List SlotSpec := [⟨"07:00", 7, 0⟩, ⟨"13:30", 13, 30⟩]

/-- Seconds past midnight of a slot's instant. -/
def slotSecs (s : SlotSpec) : Nat := s.hour * 3600 + s.minute * 60

/-- `datetime.combine(date.today(), …).replace(hour=h, minute=m)` at time
`t`: today's instant of the slot. -/
def schedTodayAt (t : Nat) (s : SlotSpec) : Nat :=
  dayOf t * secPerDay + slotSecs s

/-- `next_dt_for(h, m, date.today())` (v2 lines 279–286) evaluated at time
`t`: today's instant if still in the future, else tomorrow's. -/
def next_dt_for (t : Nat) (s : SlotSpec) : Nat :=
  let candidate := schedTodayAt t s
  if candidate ≤ t then candidate + secPerDay else candidate

/-- The observable events of the scheduler loop: each `run_once(label)`
call with the time it started, and each "sleeps until …" announcement
(v2 line 322) with the chosen target instant and slot label. -/
inductive SchedEv where
  | fire (label : String) (t : Nat)
  | sleepUntil (t : Nat) (label : String)
deriving DecidableEq, Repr

/-- Environment of the interpreted loop: `sleepExtra k` is the oversleep of
the `k`-th `time.sleep` call (host suspension / OS delay), and `runs k`
gives the duration and escaping exception of the `k`-th `run_once` call. -/
structure SchedEnv where
  sleepExtra : Nat → Nat
  runs : Nat → Nat × Option String

/-- Interpreter state: current time, the `last_run` dict (by slot index),
the sleep and run call counters, and the event journal. -/
structure SchedSt where
  time : Nat
  lastRun : List (Option Nat)
  sleepK : Nat
  runK : Nat
  journal : List SchedEv
deriving DecidableEq, Repr

/-- `time.sleep(n)`: advances time by `n` plus the environment's oversleep. -/
def schedSleep (env : SchedEnv) (n : Nat) (st : SchedSt) : SchedSt :=
  { st with time := st.time + n + env.sleepExtra st.sleepK,
            sleepK := st.sleepK + 1 }

/-- A `run_once(label)` call at this layer: journal the firing, advance
time by the run's duration, and propagate the exception if it raised one
(there is no `try`/`except` around either call site in `loop_scheduler`). -/
def schedRunOnce (env : SchedEnv) (label : String) (st : SchedSt) :
    Except String SchedSt :=
  let dur := (env.runs st.runK).1
  let st' := { st with time := st.time + dur, runK := st.runK + 1,
                       journal := st.journal ++ [.fire label st.time] }
  match (env.runs st.runK).2 with
  | none => .ok st'
  | some e => .error e

/-- One step of the catch-up `for` loop (v2 lines 298–303) for slot index
`i`.  `now0` is the `now` snapshot taken at the top of the `while` body;
`date.today()` is evaluated live. -/
def catchUpStep (env : SchedEnv) (now0 : Nat) (acc : SchedSt × Bool)
    (i : Nat) : Except String (SchedSt × Bool) :=
  let st := acc.1
  let s := SCHEDULES.getD i default
  let schedToday := schedTodayAt st.time s
  if now0 ≥ schedToday ∧ st.lastRun.getD i none ≠ some (dayOf st.time) then do
    let st' ← schedRunOnce env s.label st
    .ok ({ st' with lastRun := st'.lastRun.set i (some (dayOf st'.time)) }, true)
  else
    .ok acc

/-- The whole catch-up `for` loop over `SCHEDULES` (v2 lines 296–303). -/
def catchUpPhase (env : SchedEnv) (now0 : Nat) (st : SchedSt) :
    Except String (SchedSt × Bool) :=
  (List.range SCHEDULES.length).foldlM (catchUpStep env now0) (st, false)

/-- The `upcoming` entry for slot index `i` (v2 lines 310–318). -/
def upcomingFor (st : SchedSt) (i : Nat) : Nat :=
  let s := SCHEDULES.getD i default
  let schedToday := schedTodayAt st.time s
  if st.lastRun.getD i none = some (dayOf st.time) then
    next_dt_for st.time s
  else
    let sched := next_dt_for st.time s
    if st.time < schedToday then schedToday else sched

/-- The `upcoming` list (v2 lines 309–318), as (instant, slot index). -/
def upcomingList (st : SchedSt) : List (Nat × Nat) :=
  (List.range SCHEDULES.length).map (fun i => (upcomingFor st i, i))

/-- `min(upcoming, key=lambda x: x[0])` (v2 line 320): first minimum wins
ties, as in Python.  `SCHEDULES` is nonempty so the empty case is junk. -/
def minUpcoming : List (Nat × Nat) → Nat × Nat
  | [] => (0, 0)
  | x :: xs => xs.foldl (fun best y => if y.1 < best.1 then y else best) x

/-- The chunked-sleep `while wait_seconds > 0` loop (v2 lines 323–327):
nap `min(wait, 300)` seconds, then recompute the remaining wait from the
fixed target `nt`.  Each pass advances time by at least 1 second, so
`fuel = wait.toNat` passes always suffice to reach `wait ≤ 0`. -/
def sleepChunks (env : SchedEnv) (nt : Nat) : Nat → Int → SchedSt → SchedSt
  | 0, _, st => st
  | fuel + 1, wait, st =>
    if 0 < wait then
      let nap := min wait 300
      let st' := schedSleep env nap.toNat st
      sleepChunks env nt fuel ((nt : Int) - (st'.time : Int)) st'
    else st

/-- The no-slot-due half of a `while True` iteration (v2 lines 309–329):
announce and perform the chunked sleep towards the earliest upcoming
instant, then `run_once(next_label)` and mark its slot done today. -/
def bottomPhase (env : SchedEnv) (st1 : SchedSt) : Except String SchedSt := do
  let pick := minUpcoming (upcomingList st1)
  let nextLabel := (SCHEDULES.getD pick.2 default).label
  let st2 := { st1 with journal := st1.journal ++ [.sleepUntil pick.1 nextLabel] }
  let wait0 : Int := max 5 ((pick.1 : Int) - (st2.time : Int))
  let st3 := sleepChunks env pick.1 wait0.toNat wait0 st2
  let st4 ← schedRunOnce env nextLabel st3
  .ok { st4 with lastRun := st4.lastRun.set pick.2 (some (dayOf st4.time)) }

/-- One iteration of the `while True` loop of `loop_scheduler`
(v2 lines 294–329): catch-up pass; if anything ran, `time.sleep(30)` and
continue, otherwise sleep until the next instant and run it. -/
def schedBody (env : SchedEnv) (st : SchedSt) : Except String SchedSt := do
  let now0 := st.time
  let acc ← catchUpPhase env now0 st
  if acc.2 then
    .ok (schedSleep env 30 acc.1)
  else
    bottomPhase env acc.1

/-- `loop_scheduler` (v2 lines 288–329), iterated `fuel` times; `last_run`
starts as `{label: None for label in SCHEDULES}`.  The loop has no exit:
`.ok` is only reached by exhausting the fuel, while an exception raised by
a `run_once` call ends the recursion early with `.error`. -/
def loopScheduler (env : SchedEnv) : Nat → SchedSt → Except String SchedSt
  | 0, st => .ok st
  | fuel + 1, st => do
    let st' ← schedBody env st
    loopScheduler env fuel st'

/-- The initial scheduler state at time `t0`. -/
def initSt (t0 : Nat) : SchedSt :=
  { time := t0, lastRun := [none, none], sleepK := 0, runK := 0, journal := [] }

/-! ### Specification-side definitions and concrete scenario data

`specSubmitLoop` is the one spec-side definition of this development: it
transcribes the ordered-search pseudocode of spec §4.2 so that the source's
nested `submit_official` loops can be proved to refine it.  Everything else
below is concrete scenario data (posts, oracles, environments, start
states) used to instantiate the theorems. -/

/-- Spec §4.2 pseudocode, transcribed: walk the ranked
`(mapping, hidden)` combinations in order, return `success(mapping,
hidden)` on the first acceptance, and `failure(lastStatus, lastBody)` after
the whole list.  `g` maps a combination to `(accepted?, status, body)`. -/
def specSubmitLoop (g : TextMapping → Hidden → Bool × Nat × String) :
    List (TextMapping × Hidden) → (Option Nat × String) →
    List (TextMapping × Hidden) → SubOut
  | [], last, tried => ⟨false, last.1, last.2, none, none, tried⟩
  | c :: cs, last, tried =>
    if (g c.1 c.2).1 then
      ⟨true, some (g c.1 c.2).2.1, (g c.1 c.2).2.2, some c.1, some c.2, tried ++ [c]⟩
    else
      specSubmitLoop g cs (some (g c.1 c.2).2.1, (g c.1 c.2).2.2) (tried ++ [c])

/-- An attempt function that never raises, returning `g`'s triple. -/
def attOf (g : TextMapping → Hidden → Bool × Nat × String) :
    TextMapping → Hidden → Except String (Bool × Nat × String) :=
  fun m h => .ok (g m h)

/-- The `(accepted?, status, preview)` triple `try_submit_with_mapping`
produces for a combination under a non-raising `post`. -/
def gOf (post : Payload → Nat × String) (r : SpeedResults) (ts : String)
    (m : TextMapping) (h : Hidden) : Bool × Nat × String :=
  (((post (assemblePayload defaultConfig m h r ts)).1 == 200
     || (post (assemblePayload defaultConfig m h r ts)).1 == 302),
   (post (assemblePayload defaultConfig m h r ts)).1,
   strTake (post (assemblePayload defaultConfig m h r ts)).2 500)

/-- A combination is accepted when its POST returns status 200 or 302. -/
def accepts (post : Payload → Nat × String) (r : SpeedResults) (ts : String)
    (c : TextMapping × Hidden) : Bool :=
  (post (assemblePayload defaultConfig c.1 c.2 r ts)).1 == 200
   || (post (assemblePayload defaultConfig c.1 c.2 r ts)).1 == 302

/-- The mapping × hidden cross-product for a given outer list. -/
def prodOf (ms : List TextMapping) : List (TextMapping × Hidden) :=
  ms.flatMap (fun m => HIDDEN_CANDIDATES.map (fun h => (m, h)))

/-- A sample measurement (the spec §8 end-to-end scenario's numbers). -/
def r0 : SpeedResults := ⟨45.2, 10.1, 18.4, "srv.example", "1.2.3.4"⟩

/-- A post that accepts every combination with status 200. -/
def postOk : Payload → Nat × String := fun _ => (200, "ok!")

/-- An attempt oracle whose first attempt fails with a 403 and whose later
attempts fail with a generic socket timeout. -/
def c8oracle : Nat → AttemptResult :=
  fun i => .err (if i = 1 then "HTTP Error 403: Forbidden" else "timed out")

/-- An attempt oracle that fails transiently once and then succeeds. -/
def c9oracle : Nat → AttemptResult :=
  fun i => if i = 1 then .err "HTTP Error 403: Forbidden" else .ok r0

/-- Scheduler environment of the double-fire trace: all runs instantaneous
and successful; the four `time.sleep` calls oversleep by 0 s, 23 100 s,
145 500 s (a host suspension across the whole of day 2) and 3 300 s. -/
def env6 : SchedEnv :=
  { sleepExtra := fun k => [0, 23100, 145500, 3300].getD k 0,
    runs := fun _ => (0, none) }

/-- Scheduler environment of the missed-catch-up trace: the first sleep
oversleeps by 60 900 s (suspension across both day-1 instants, waking at
23:55), the first `run_once` takes 400 s (crossing midnight), all runs
succeed. -/
def env7x : SchedEnv :=
  { sleepExtra := fun k => if k = 0 then 60900 else 0,
    runs := fun k => if k = 0 then (400, none) else (0, none) }

/-- Scheduler environment in which every `run_once` raises `e` (for
example, the fallback-exhausted `RuntimeError` of `measure_speed_cli`). -/
def envRaise (e : String) : SchedEnv :=
  { sleepExtra := fun _ => 0, runs := fun _ => (0, some e) }

/-- Scheduler environment in which no `run_once` ever raises. -/
def envOk (dur : Nat → Nat) : SchedEnv :=
  { sleepExtra := fun _ => 0, runs := fun k => (dur k, none) }

/-- Environment of the same-day resume scenario: the first sleep oversleeps
so that the scheduler wakes at `tr`; the two runs take `d1` and `d2`
seconds and succeed. -/
def env7 (dd tr d1 d2 : Nat) : SchedEnv :=
  { sleepExtra := fun k => if k = 0 then tr - (dd * secPerDay + 25200) else 0,
    runs := fun k => if k = 0 then (d1, none)
                     else if k = 1 then (d2, none) else (0, none) }

/-- Start state of the same-day resume scenario: 06:56:40 on day `dd`, both
slots last run on days `p1` and `p2`. -/
def st7 (dd p1 p2 : Nat) : SchedSt :=
  { time := dd * secPerDay + 25000, lastRun := [some p1, some p2],
    sleepK := 0, runK := 0, journal := [] }

/-- Is this event a firing of `label` on calendar day `d`? -/
def isFireOn (label : String) (d : Nat) : SchedEv → Bool
  | .fire l t => l == label && dayOf t == d
  | _ => false

/-- How many times `label` fired on day `d` in a journal. -/
def fireCount (label : String) (d : Nat) (j : List SchedEv) : Nat :=
  (j.filter (isFireOn label d)).length

/-! ## Supporting lemmas -/

theorem pyLoop_zero (oracle : Nat → AttemptResult) (backoff attempt : Nat)
    (acc : List Nat) (lastErr : Option String) :
    pyLoop oracle backoff attempt 0 acc lastErr
      = ⟨.error lastErr, acc.reverse, attempt - 1⟩ := rfl

theorem pyLoop_ok (oracle : Nat → AttemptResult) (backoff attempt r : Nat)
    (acc : List Nat) (lastErr : Option String) (res : SpeedResults)
    (h : oracle attempt = .ok res) :
    pyLoop oracle backoff attempt (r + 1) acc lastErr
      = ⟨.ok res, acc.reverse, attempt⟩ := by
  rw [pyLoop, h]

theorem pyLoop_err (oracle : Nat → AttemptResult) (backoff attempt r : Nat)
    (acc : List Nat) (lastErr : Option String) (m : String)
    (h : oracle attempt = .err m) :
    pyLoop oracle backoff attempt (r + 1) acc lastErr
      = pyLoop oracle backoff (attempt + 1) r
          (attemptWait backoff attempt m :: acc) (some m) := by
  rw [pyLoop, h]

theorem submitInner_spec (g : TextMapping → Hidden → Bool × Nat × String)
    (m : TextMapping) :
    ∀ (hs : List Hidden) (last : Option Nat × String)
      (tried rest : List (TextMapping × Hidden)),
    ∃ res, submitInner (attOf g) m hs last tried = .ok res ∧
      specSubmitLoop g (hs.map (fun h => (m, h)) ++ rest) last tried =
        (match res with
         | .inl out => out
         | .inr lt => specSubmitLoop g rest lt.1 lt.2) := by
  intro hs
  induction hs with
  | nil =>
    intro last tried rest
    exact ⟨.inr (last, tried), rfl, rfl⟩
  | cons h hs ih =>
    intro last tried rest
    by_cases hb : (g m h).1 = true
    · refine ⟨.inl ⟨true, some (g m h).2.1, (g m h).2.2, some m, some h,
        tried ++ [(m, h)]⟩, ?_, ?_⟩
      · simp [submitInner, attOf, hb, Bind.bind, Except.bind]
      · simp [specSubmitLoop, hb]
    · rw [Bool.not_eq_true] at hb
      obtain ⟨res, e1, e2⟩ := ih (some (g m h).2.1, (g m h).2.2) (tried ++ [(m, h)]) rest
      refine ⟨res, ?_, ?_⟩
      · simp [submitInner, attOf, hb, e1, Bind.bind, Except.bind]
      · simp [specSubmitLoop, hb, e2]

theorem submitOuter_spec (g : TextMapping → Hidden → Bool × Nat × String) :
    ∀ (ms : List TextMapping) (last : Option Nat × String)
      (tried : List (TextMapping × Hidden)),
    submitOuter (attOf g) ms last tried
      = .ok (specSubmitLoop g (prodOf ms) last tried) := by
  intro ms
  induction ms with
  | nil => intro last tried; rfl
  | cons m ms ih =>
    intro last tried
    obtain ⟨res, e1, e2⟩ :=
      submitInner_spec g m HIDDEN_CANDIDATES last tried (prodOf ms)
    have hp : prodOf (m :: ms)
        = HIDDEN_CANDIDATES.map (fun h => (m, h)) ++ prodOf ms := by
      simp [prodOf]
    rw [hp]
    cases res with
    | inl out => simp [submitOuter, e1, e2, Bind.bind, Except.bind]
    | inr lt => simp [submitOuter, e1, e2, ih, Bind.bind, Except.bind]

theorem specSubmitLoop_found (g : TextMapping → Hidden → Bool × Nat × String) :
    ∀ (cs : List (TextMapping × Hidden)) (last : Option Nat × String)
      (tried : List (TextMapping × Hidden)) (c0 : TextMapping × Hidden),
    cs.find? (fun c => (g c.1 c.2).1) = some c0 →
    specSubmitLoop g cs last tried =
      ⟨true, some (g c0.1 c0.2).2.1, (g c0.1 c0.2).2.2, some c0.1, some c0.2,
       tried ++ cs.take (cs.findIdx (fun c => (g c.1 c.2).1) + 1)⟩ := by
  intro cs
  induction cs with
  | nil => intro last tried c0 hf; simp at hf
  | cons c cs ih =>
    intro last tried c0 hf
    by_cases hb : (g c.1 c.2).1 = true
    · simp only [List.find?_cons, hb] at hf
      cases hf
      simp [specSubmitLoop, hb, List.findIdx_cons]
    · rw [Bool.not_eq_true] at hb
      simp only [List.find?_cons, hb] at hf
      rw [specSubmitLoop, if_neg (by simp [hb]), ih _ _ _ hf]
      simp [List.findIdx_cons, hb, List.take_succ_cons]

theorem specSubmitLoop_none (g : TextMapping → Hidden → Bool × Nat × String) :
    ∀ (cs : List (TextMapping × Hidden)) (last : Option Nat × String)
      (tried : List (TextMapping × Hidden)),
    cs.find? (fun c => (g c.1 c.2).1) = none →
    ∃ code preview, specSubmitLoop g cs last tried =
      ⟨false, code, preview, none, none, tried ++ cs⟩ := by
  intro cs
  induction cs with
  | nil =>
    intro last tried _
    exact ⟨last.1, last.2, by simp [specSubmitLoop]⟩
  | cons c cs ih =>
    intro last tried hf
    by_cases hb : (g c.1 c.2).1 = true
    · simp only [List.find?_cons, hb] at hf
      exact absurd hf (by simp)
    · rw [Bool.not_eq_true] at hb
      simp only [List.find?_cons, hb] at hf
      obtain ⟨code, preview, e⟩ :=
        ih (some (g c.1 c.2).2.1, (g c.1 c.2).2.2) (tried ++ [c]) hf
      refine ⟨code, preview, ?_⟩
      rw [specSubmitLoop, if_neg (by simp [hb]), e]
      simp

/-- `submit_official` under a non-raising post is the outer loop over
`attOf (gOf post r ts)`: the validations of `build_payload_base` pass for
the default configuration, so no attempt raises. -/
theorem submit_official_attOf (post : Payload → Nat × String)
    (r : SpeedResults) (ts : String) :
    submit_official defaultConfig (fun p => .ok (post p)) r ts
      = submitOuter (attOf (gOf post r ts)) TEXT_MAPPING_TRIES (none, "") [] := rfl

theorem accepts_eq_gOf (post : Payload → Nat × String) (r : SpeedResults)
    (ts : String) : accepts post r ts = fun c => (gOf post r ts c.1 c.2).1 := rfl

theorem prodOf_tries : prodOf TEXT_MAPPING_TRIES = comboList := rfl

theorem dayOf_add (dd r : Nat) (h : r < 86400) :
    dayOf (dd * secPerDay + r) = dd := by
  simp only [dayOf, secPerDay]
  omega

theorem sleepChunks_stop (env : SchedEnv) (nt : Nat) (f : Nat) (w : Int)
    (st : SchedSt) (h : ¬ 0 < w) : sleepChunks env nt f w st = st := by
  cases f with
  | zero => rfl
  | succ f => rw [sleepChunks, if_neg h]

theorem loopScheduler_succ (env : SchedEnv) (f : Nat) (st : SchedSt) :
    loopScheduler env (f + 1) st = (schedBody env st) >>= loopScheduler env f := rfl

theorem catchUpStep_skip (env : SchedEnv) (now0 : Nat) (acc : SchedSt × Bool)
    (i : Nat)
    (h : ¬(now0 ≥ schedTodayAt acc.1.time (SCHEDULES.getD i default) ∧
           acc.1.lastRun.getD i none ≠ some (dayOf acc.1.time))) :
    catchUpStep env now0 acc i = .ok acc := by
  unfold catchUpStep
  rw [if_neg h]

theorem catchUpStep_fire (env : SchedEnv) (now0 : Nat) (st : SchedSt) (b : Bool)
    (i : Nat)
    (h : now0 ≥ schedTodayAt st.time (SCHEDULES.getD i default) ∧
         st.lastRun.getD i none ≠ some (dayOf st.time))
    (hrun : (env.runs st.runK).2 = none) :
    catchUpStep env now0 (st, b) i =
      .ok ({ time := st.time + (env.runs st.runK).1,
             lastRun := st.lastRun.set i
               (some (dayOf (st.time + (env.runs st.runK).1))),
             sleepK := st.sleepK, runK := st.runK + 1,
             journal := st.journal ++
               [.fire (SCHEDULES.getD i default).label st.time] },
           true) := by
  unfold catchUpStep schedRunOnce
  rw [if_pos h, hrun]
  rfl

theorem catchUpPhase_eq (env : SchedEnv) (now0 : Nat) (st : SchedSt) :
    catchUpPhase env now0 st =
      (catchUpStep env now0 (st, false) 0) >>= fun a => catchUpStep env now0 a 1 := by
  unfold catchUpPhase
  rw [show List.range SCHEDULES.length = [0, 1] from rfl]
  simp only [List.foldlM_cons, List.foldlM_nil]
  simp

theorem catchUpPhase_skip2 (env : SchedEnv) (now0 : Nat) (st : SchedSt)
    (h0 : catchUpStep env now0 (st, false) 0 = .ok (st, false))
    (h1 : catchUpStep env now0 (st, false) 1 = .ok (st, false)) :
    catchUpPhase env now0 st = .ok (st, false) := by
  rw [catchUpPhase_eq, h0]
  exact h1

theorem catchUpPhase_fire2 (env : SchedEnv) (now0 : Nat) (st st' : SchedSt)
    (b : Bool)
    (h0 : catchUpStep env now0 (st, false) 0 = .ok (st, false))
    (h1 : catchUpStep env now0 (st, false) 1 = .ok (st', b)) :
    catchUpPhase env now0 st = .ok (st', b) := by
  rw [catchUpPhase_eq, h0]
  exact h1

theorem schedRunOnce_ok (env : SchedEnv) (label : String) (st : SchedSt)
    (h : (env.runs st.runK).2 = none) :
    schedRunOnce env label st =
      .ok { time := st.time + (env.runs st.runK).1, lastRun := st.lastRun,
            sleepK := st.sleepK, runK := st.runK + 1,
            journal := st.journal ++ [.fire label st.time] } := by
  unfold schedRunOnce
  rw [h]

theorem schedBody_eq (env : SchedEnv) (st : SchedSt) :
    schedBody env st = (catchUpPhase env st.time st) >>= fun acc =>
      if acc.2 then .ok (schedSleep env 30 acc.1) else bottomPhase env acc.1 := rfl

theorem schedBody_of_none (env : SchedEnv) (st st1 : SchedSt)
    (X : Except String SchedSt)
    (h : catchUpPhase env st.time st = .ok (st1, false))
    (hb : bottomPhase env st1 = X) :
    schedBody env st = X := by
  rw [schedBody_eq, h]
  exact hb

theorem schedBody_of_ran (env : SchedEnv) (st st1 : SchedSt)
    (h : catchUpPhase env st.time st = .ok (st1, true)) :
    schedBody env st = .ok (schedSleep env 30 st1) := by
  rw [schedBody_eq, h]
  rfl
theorem c7_pick (dd p1 p2 : Nat) :
    minUpcoming (upcomingList (st7 dd p1 p2)) = (dd * secPerDay + 25200, 0) := by
  have hd0 : dayOf (dd * secPerDay + 25000) = dd := dayOf_add dd 25000 (by omega)
  unfold upcomingList upcomingFor minUpcoming st7
  rw [show List.range SCHEDULES.length = [0, 1] from rfl]
  simp only [List.map, List.getD, SCHEDULES, schedTodayAt, next_dt_for, slotSecs, hd0]
  norm_num

theorem c7_bottom (dd p1 p2 tr d1 d2 : Nat)
    (h1 : dd * secPerDay + 48600 ≤ tr)
    (h2 : tr + d1 + d2 + 30 < (dd + 1) * secPerDay) :
    bottomPhase (env7 dd tr d1 d2) (st7 dd p1 p2) =
      .ok { time := tr + d1, lastRun := [some dd, some p2], sleepK := 1,
            runK := 1,
            journal := [.sleepUntil (dd * secPerDay + 25200) "07:00",
                        .fire "07:00" tr] } := by
  have hsp : secPerDay = 86400 := rfl
  simp only [bottomPhase]
  rw [c7_pick]
  simp only [SCHEDULES, List.get?, List.getD, st7, List.nil_append, Option.getD_some]
  have hw : (5 : Int) ⊔ ((dd * secPerDay + 25200 : Nat) - ((dd * secPerDay + 25000 : Nat) : Int)) = 200 := by
    push_cast
    omega
  rw [hw]
  rw [show ((200 : Int)).toNat = 199 + 1 from rfl, sleepChunks, if_pos (by norm_num)]
  simp only [schedSleep, env7, if_true]
  have htr : dd * secPerDay + 25000 + ((200 : Int) ⊓ 300).toNat
      + (tr - (dd * secPerDay + 25200)) = tr := by
    rw [show ((200 : Int) ⊓ 300).toNat = 200 from by decide]
    omega
  rw [htr]
  rw [sleepChunks_stop _ _ _ _ _ (by simp only [hsp] at h1 ⊢; omega)]
  rw [schedRunOnce_ok _ _ _ (by rfl)]
  have hday : dayOf (tr + d1) = dd := by
    simp only [dayOf, hsp] at h1 h2 ⊢
    omega
  simp only [Bind.bind, Except.bind, List.set]
  simp [hday]

theorem c7_body1 (dd p1 p2 tr d1 d2 : Nat)
    (h1 : dd * secPerDay + 48600 ≤ tr)
    (h2 : tr + d1 + d2 + 30 < (dd + 1) * secPerDay) :
    schedBody (env7 dd tr d1 d2) (st7 dd p1 p2) =
      .ok { time := tr + d1, lastRun := [some dd, some p2], sleepK := 1,
            runK := 1,
            journal := [.sleepUntil (dd * secPerDay + 25200) "07:00",
                        .fire "07:00" tr] } := by
  have hd0 : dayOf (dd * secPerDay + 25000) = dd := dayOf_add dd 25000 (by omega)
  refine schedBody_of_none _ _ _ _ (catchUpPhase_skip2 _ _ _ ?_ ?_) (c7_bottom dd p1 p2 tr d1 d2 h1 h2)
  · refine catchUpStep_skip _ _ _ _ ?_
    simp only [st7, SCHEDULES, List.getD, schedTodayAt, slotSecs, hd0]
    norm_num
  · refine catchUpStep_skip _ _ _ _ ?_
    simp only [st7, SCHEDULES, List.getD, schedTodayAt, slotSecs, hd0]
    norm_num

theorem c7_body2 (dd p2 tr d1 d2 : Nat)
    (hp2 : p2 ≠ dd)
    (h1 : dd * secPerDay + 48600 ≤ tr)
    (h2 : tr + d1 + d2 + 30 < (dd + 1) * secPerDay) :
    schedBody (env7 dd tr d1 d2)
      { time := tr + d1, lastRun := [some dd, some p2], sleepK := 1,
        runK := 1,
        journal := [.sleepUntil (dd * secPerDay + 25200) "07:00",
                    .fire "07:00" tr] } =
      .ok { time := tr + d1 + d2 + 30, lastRun := [some dd, some dd], sleepK := 2,
            runK := 2,
            journal := [.sleepUntil (dd * secPerDay + 25200) "07:00",
                        .fire "07:00" tr, .fire "13:30" (tr + d1)] } := by
  have hsp : secPerDay = 86400 := rfl
  have hd1 : dayOf (tr + d1) = dd := by
    simp only [dayOf, hsp] at h1 h2 ⊢
    omega
  have hd2 : dayOf (tr + d1 + d2) = dd := by
    simp only [dayOf, hsp] at h1 h2 ⊢
    omega
  have hfire : catchUpPhase (env7 dd tr d1 d2) (tr + d1)
      ({ time := tr + d1, lastRun := [some dd, some p2], sleepK := 1,
         runK := 1,
         journal := [.sleepUntil (dd * secPerDay + 25200) "07:00",
                     .fire "07:00" tr] } : SchedSt) =
      .ok ({ time := tr + d1 + d2, lastRun := [some dd, some dd], sleepK := 1,
             runK := 2,
             journal := [.sleepUntil (dd * secPerDay + 25200) "07:00",
                         .fire "07:00" tr, .fire "13:30" (tr + d1)] }, true) := by
    refine catchUpPhase_fire2 _ _ _ _ _ (catchUpStep_skip _ _ _ _ ?_) ?_
    · simp only [SCHEDULES, List.getD, schedTodayAt, slotSecs, hd1]
      intro hcon
      exact hcon.2 rfl
    · rw [catchUpStep_fire _ _ _ _ _ ?_ (by rfl)]
      · simp only [SCHEDULES, List.getD, List.set]
        have : (env7 dd tr d1 d2).runs 1 = (d2, none) := rfl
        rw [this]
        simp [hd2]
      · constructor
        · simp only [SCHEDULES, List.get?, List.getD, Option.getD_some,
              schedTodayAt, slotSecs, hd1]
          simp only [hsp] at h1 ⊢
          omega
        · simp only [List.getD, hd1]
          simp
          exact hp2
  have hrw := schedBody_of_ran (env7 dd tr d1 d2) _ _ hfire
  rw [hrw]
  simp only [schedSleep, env7, if_neg (by norm_num : ¬(1 : Nat) = 0)]

theorem schedRunOnce_envOk (dur : Nat → Nat) (label : String) (st : SchedSt) :
    ∃ st', schedRunOnce (envOk dur) label st = .ok st' := ⟨_, rfl⟩

theorem catchUpStep_envOk (dur : Nat → Nat) (now0 : Nat) (acc : SchedSt × Bool)
    (i : Nat) : ∃ acc', catchUpStep (envOk dur) now0 acc i = .ok acc' := by
  unfold catchUpStep
  dsimp only
  split
  · exact ⟨_, rfl⟩
  · exact ⟨_, rfl⟩

theorem catchUpPhase_envOk (dur : Nat → Nat) (now0 : Nat) (st : SchedSt) :
    ∃ acc, catchUpPhase (envOk dur) now0 st = .ok acc := by
  obtain ⟨a1, e1⟩ := catchUpStep_envOk dur now0 (st, false) 0
  obtain ⟨a2, e2⟩ := catchUpStep_envOk dur now0 a1 1
  refine ⟨a2, ?_⟩
  rw [catchUpPhase_eq, e1]
  exact e2

theorem bottomPhase_envOk (dur : Nat → Nat) (st1 : SchedSt) :
    ∃ st', bottomPhase (envOk dur) st1 = .ok st' := by
  unfold bottomPhase
  exact ⟨_, rfl⟩

theorem schedBody_envOk (dur : Nat → Nat) (st : SchedSt) :
    ∃ st', schedBody (envOk dur) st = .ok st' := by
  obtain ⟨acc, e⟩ := catchUpPhase_envOk dur st.time st
  obtain ⟨st', e'⟩ := bottomPhase_envOk dur acc.1
  rcases hb : acc.2 with - | -
  · refine ⟨st', ?_⟩
    rw [schedBody_eq, e]
    show (if acc.2 then _ else _) = _
    rw [hb]
    exact e'
  · refine ⟨schedSleep (envOk dur) 30 acc.1, ?_⟩
    rw [schedBody_eq, e]
    show (if acc.2 then _ else _) = _
    rw [hb]
    rfl

theorem loopScheduler_envOk (dur : Nat → Nat) :
    ∀ (f : Nat) (st : SchedSt), ∃ st', loopScheduler (envOk dur) f st = .ok st' := by
  intro f
  induction f with
  | zero => exact fun st => ⟨st, rfl⟩
  | succ f ih =>
    intro st
    obtain ⟨st1, e1⟩ := schedBody_envOk dur st
    obtain ⟨st2, e2⟩ := ih st1
    refine ⟨st2, ?_⟩
    rw [loopScheduler_succ, e1]
    exact e2

/-! ## The claims -/

/-- **C1.** For every measurement and identity, `submit_official` returns
success if and only if some (mapping, hidden) combination's POST returns
HTTP status 200 or 302; it iterates the cross-product of ranked mappings
(outer) and ranked hidden sets (inner) in order, stops at the first
accepted combination without trying any further combination (its attempt
journal is exactly the prefix of `comboList` up to and including the first
accepted combination) and reports that mapping and hidden set as the ones
used; it declares failure only after every combination has been tried
(the attempt journal is all of `comboList`). -/
theorem claim_C1_submit_official_first_success
    (post : Payload → Nat × String) (r : SpeedResults) (ts : String) :
    ∃ out, submit_official defaultConfig (fun p => .ok (post p)) r ts = .ok out ∧
      (out.ok = true ↔ (comboList.find? (accepts post r ts)).isSome) ∧
      (∀ c, comboList.find? (accepts post r ts) = some c →
        out.ok = true ∧
        out.code = some (post (assemblePayload defaultConfig c.1 c.2 r ts)).1 ∧
        out.usedMapping = some c.1 ∧ out.usedHidden = some c.2 ∧
        out.attempts = comboList.take (comboList.findIdx (accepts post r ts) + 1)) ∧
      (comboList.find? (accepts post r ts) = none →
        out.ok = false ∧ out.usedMapping = none ∧ out.usedHidden = none ∧
        out.attempts = comboList) := by
  have hsub : submit_official defaultConfig (fun p => .ok (post p)) r ts
      = .ok (specSubmitLoop (gOf post r ts) comboList (none, "") []) := by
    rw [submit_official_attOf, submitOuter_spec, prodOf_tries]
  rcases hf : comboList.find? (accepts post r ts) with - | c0
  · obtain ⟨code, preview, e⟩ :=
      specSubmitLoop_none (gOf post r ts) comboList (none, "") []
        (by rw [← accepts_eq_gOf]; exact hf)
    refine ⟨_, hsub, ?_⟩
    rw [e]
    refine ⟨by simp, ?_, ?_⟩
    · intro c hc; exact absurd hc (by simp)
    · intro _; simp
  · have e := specSubmitLoop_found (gOf post r ts) comboList (none, "") [] c0
        (by rw [← accepts_eq_gOf]; exact hf)
    refine ⟨_, hsub, ?_⟩
    rw [e]
    refine ⟨by simp, ?_, ?_⟩
    · intro c hc
      cases hc
      refine ⟨rfl, rfl, rfl, rfl, ?_⟩
      simp [← accepts_eq_gOf]
    · intro hc; exact absurd hc (by simp)

/-- **C1 witness**: the characterization instantiated at a post that
accepts every payload with status 200 and the sample measurement. -/
theorem claim_C1_witness :
    ∃ out, submit_official defaultConfig (fun p => .ok (postOk p)) r0
        "2026-01-01 07:00:00" = .ok out ∧
      (out.ok = true ↔
        (comboList.find? (accepts postOk r0 "2026-01-01 07:00:00")).isSome) ∧
      (∀ c, comboList.find? (accepts postOk r0 "2026-01-01 07:00:00") = some c →
        out.ok = true ∧
        out.code = some (postOk (assemblePayload defaultConfig c.1 c.2 r0
          "2026-01-01 07:00:00")).1 ∧
        out.usedMapping = some c.1 ∧ out.usedHidden = some c.2 ∧
        out.attempts = comboList.take
          (comboList.findIdx (accepts postOk r0 "2026-01-01 07:00:00") + 1)) ∧
      (comboList.find? (accepts postOk r0 "2026-01-01 07:00:00") = none →
        out.ok = false ∧ out.usedMapping = none ∧ out.usedHidden = none ∧
        out.attempts = comboList) :=
  claim_C1_submit_official_first_success postOk r0 "2026-01-01 07:00:00"

/-- **C2.** The claim says both schemas normalize download *and* upload by
the same conversion to Mbps.  The code refutes this for upload: a nested
(Ookla) upload bandwidth of 12 500 000 bytes/s — numerically equivalent to
a flat value of 100 000 000 bits/s — produces 800.0 Mbps (the source
multiplies upload by 8 twice, v2 line 144), not the 100.0 Mbps the flat
schema produces.  Download is normalized consistently (both 100.0). -/
theorem claim_C2_upload_double_scaled :
    ∃ a b : SpeedResults,
      parse_cli_output (.flat 100000000 100000000 18 "s" "i") = some a ∧
      parse_cli_output (.ookla 12500000 12500000 18 "s" "i") = some b ∧
      a.download = b.download ∧ a.download = 100 ∧
      a.upload = 100 ∧ b.upload = 800 ∧ a.upload ≠ b.upload := by
  refine ⟨⟨100, 100, 18, "s", "i"⟩, ⟨100, 800, 18, "s", "i"⟩,
    ?_, ?_, rfl, rfl, rfl, rfl, by norm_num⟩
  · norm_num [parse_cli_output, round2]
  · norm_num [parse_cli_output, round2]

/-- **C3 counterexample.** The claim says a durability append happens on
every run regardless of measurement success and that a failed measurement
is recorded as a failure outcome.  In the code a measurement failure
propagates out of `run_once` before anything is written: no event is
journalled and the exception escapes. -/
theorem claim_C3_counterexample :
    run_once defaultConfig
      (.error "RuntimeError: تعذر تشغيل speedtest CLI")
      (fun p => .ok (postOk p)) "2026-01-01 07:00:05" "07:00"
      = ([], some "RuntimeError: تعذر تشغيل speedtest CLI") := rfl

/-- **C3 (amended).** Every firing performs, in this order: measurement,
then — only if measurement succeeded — the log-header ensure, the
submission attempt, and a single durability append recording the outcome
(SUCCESS or FAIL(code)).  A run whose measurement fails raises out of
`run_once` with nothing appended, and a submission exception likewise
raises after the header ensure with nothing appended. -/
theorem claim_C3_run_once_order
    (post : Payload → Except String (Nat × String)) (ts label : String) :
    (∀ e, run_once defaultConfig (.error e) post ts label = ([], some e)) ∧
    (∀ r out, submit_official defaultConfig post r ts = .ok out →
      run_once defaultConfig (.ok r) post ts label =
        ([.measured r, .ensuredHeader, .submitted out.ok out.code,
          .appended (logRow defaultConfig r ts label
            (if out.ok then "SUCCESS" else "FAIL(" ++ pyOptNatStr out.code ++ ")")
            out)], none)) ∧
    (∀ r e, submit_official defaultConfig post r ts = .error e →
      run_once defaultConfig (.ok r) post ts label
        = ([.measured r, .ensuredHeader], some e)) := by
  refine ⟨fun e => rfl, ?_, ?_⟩
  · intro r out h
    simp only [run_once, h]
  · intro r e h
    simp only [run_once, h]

/-- **C3 witness**: a successful measurement with an all-accepting post
performs measure → header → submit → one SUCCESS append. -/
theorem claim_C3_witness :
    run_once defaultConfig (.ok r0) (fun p => .ok (postOk p))
      "2026-01-01 07:00:05" "07:00" =
      ([.measured r0, .ensuredHeader, .submitted true (some 200),
        .appended (logRow defaultConfig r0 "2026-01-01 07:00:05" "07:00"
          "SUCCESS"
          ⟨true, some 200, "ok!", some ⟨"X_A", "X_B", "X_C", "X_D"⟩, some [],
           [(⟨"X_A", "X_B", "X_C", "X_D"⟩, [])]⟩)], none) :=
  (claim_C3_run_once_order (fun p => .ok (postOk p))
    "2026-01-01 07:00:05" "07:00").2.1 r0
    ⟨true, some 200, "ok!", some ⟨"X_A", "X_B", "X_C", "X_D"⟩, some [],
     [(⟨"X_A", "X_B", "X_C", "X_D"⟩, [])]⟩ rfl

/-- **C4 counterexample.** The claim says no error raised inside a run
ever terminates the scheduler loop.  In the code the very first firing's
exception (here the fallback-exhausted measurement error) propagates out
of `run_once` and out of `loop_scheduler`: the interpreted loop ends with
that error instead of continuing. -/
theorem claim_C4_counterexample :
    loopScheduler (envRaise "RuntimeError: boom") 3 (initSt 111400)
      = .error "RuntimeError: boom" := rfl

/-- **C4 (amended).** An error raised inside a run propagates unchanged
out of the scheduler loop and terminates it, however much fuel remains;
when no run raises, the loop never terminates on its own (every iteration
count ends in a running state, never in an error). -/
theorem claim_C4_error_propagation (e : String) (f : Nat) (dur : Nat → Nat) :
    loopScheduler (envRaise e) (f + 1) (initSt 111400) = .error e ∧
    (∀ st, ∃ st', loopScheduler (envOk dur) f st = .ok st') := by
  constructor
  · rw [loopScheduler_succ,
        show schedBody (envRaise e) (initSt 111400) = .error e from rfl]
    rfl
  · exact loopScheduler_envOk dur f

/-- **C5.** The claim (and spec §4.2) says a transport exception during
one (mapping, hidden) attempt is caught and the engine continues with the
next combination.  v2's `try_submit_with_mapping`/`submit_official` have
no `try`/`except`: the first attempt's exception aborts the whole engine
(first conjunct).  The earlier autorun variant's `submit_form` — the same
engine role — does catch it and continues to its next variant, which here
succeeds (second conjunct), showing the v2 behaviour is a regression, not
the design. -/
theorem claim_C5_transport_exception_aborts :
    submit_official defaultConfig (fun _ => .error "ConnectionError: timeout")
      r0 "2026-01-01 07:00:00" = .error "ConnectionError: timeout" ∧
    (∃ p0, Autorun.build_payload defaultConfig r0 "2026-01-01 07:00:00" = .ok p0 ∧
      Autorun.submit_form
        (fun p => if p.any (fun kv => kv.1 == "fbzx")
                  then .error "ConnectionError: timeout" else .ok (200, "done"))
        p0 = (true, some 200, "done")) :=
  ⟨rfl, _, rfl, rfl⟩

/-- **C6.** The claim says at most one firing per slot label per calendar
day under continuous operation.  Counterexample trace: start day 1
06:56:40; the third sleep chunk oversleeps 145 500 s (host suspended
across the whole of day 2), so the scheduler wakes at day 3 06:00 and
fires the "07:00" slot immediately (catch-up of the missed occurrence),
marking it done for day 3; the upcoming computation nevertheless schedules
day 3's own 07:00 instant again (`next_dt_for` returns today's instant
when it is still in the future, contradicting the source comment "already
done today; consider tomorrow's occurrence"), and the slot fires a second
time at day 3 07:00. -/
theorem claim_C6_double_fire_same_day :
    (loopScheduler env6 4 (initSt 111400)).toOption.map
      (fun st => (fireCount "07:00" 3 st.journal,
                  st.journal.filter (isFireOn "07:00" 3)))
      = some (2, [.fire "07:00" 280800, .fire "07:00" 284400]) := rfl

/-- **C7 counterexample.** The claim says that after a suspension across
both slot instants of a day, both overdue slots fire in the wake cycle,
each exactly once, before the scheduler sleeps again.  Trace: suspension
from day 1 06:56 across both day-1 instants, resume 23:55; the pending
"07:00" target fires at 23:55 and its 400 s run crosses midnight, so it
is marked done for day 2; at the next iteration neither slot's *day-2*
instant has arrived, so the overdue "13:30" slot never fires (its day-1
occurrence is lost) and the scheduler goes back to sleep — and the
"07:00" slot even fires again at day-2 07:00. -/
theorem claim_C7_counterexample :
    (loopScheduler env7x 2 (initSt 111400)).toOption.map
      (fun st => (st.journal, fireCount "13:30" 1 st.journal))
      = some ([.sleepUntil 111600 "07:00", .fire "07:00" 172500,
               .sleepUntil 198000 "07:00", .fire "07:00" 198000], 0) := rfl

/-- **C7 (amended).** If the host is suspended across both slot instants
of day `dd` (the scheduler was sleeping towards the 07:00 instant and
wakes at `tr`, past 13:30) and the resumed firings and the 30 s pause all
complete before the following midnight, then both overdue slots fire in
this wake cycle, each exactly once ("07:00" at the wake instant, "13:30"
immediately after it), and the scheduler then returns to sleeping: its
catch-up pass fires nothing further and its chosen sleep target is the
next day's 07:00 instant. -/
theorem claim_C7_resume_fires_both (dd p1 p2 tr d1 d2 : Nat)
    (hp2 : p2 ≠ dd)
    (h1 : dd * secPerDay + 48600 ≤ tr)
    (h2 : tr + d1 + d2 + 30 < (dd + 1) * secPerDay) :
    ∃ st, loopScheduler (env7 dd tr d1 d2) 2 (st7 dd p1 p2) = .ok st ∧
      st.journal = [.sleepUntil (dd * secPerDay + 25200) "07:00",
                    .fire "07:00" tr, .fire "13:30" (tr + d1)] ∧
      st.lastRun = [some dd, some dd] ∧
      catchUpPhase (env7 dd tr d1 d2) st.time st = .ok (st, false) ∧
      minUpcoming (upcomingList st) = ((dd + 1) * secPerDay + 25200, 0) := by
  have hsp : secPerDay = 86400 := rfl
  have hloop : loopScheduler (env7 dd tr d1 d2) 2 (st7 dd p1 p2) =
      .ok { time := tr + d1 + d2 + 30, lastRun := [some dd, some dd], sleepK := 2,
            runK := 2,
            journal := [.sleepUntil (dd * secPerDay + 25200) "07:00",
                        .fire "07:00" tr, .fire "13:30" (tr + d1)] } := by
    rw [loopScheduler_succ, c7_body1 dd p1 p2 tr d1 d2 h1 h2]
    rw [show ∀ (x : SchedSt) (f : SchedSt → Except String SchedSt),
          (Except.ok x >>= f) = f x from fun _ _ => rfl]
    rw [loopScheduler_succ, c7_body2 dd p2 tr d1 d2 hp2 h1 h2]
    rfl
  have hdt : dayOf (tr + d1 + d2 + 30) = dd := by
    simp only [dayOf, hsp] at h1 h2 ⊢
    omega
  refine ⟨_, hloop, rfl, rfl, ?_, ?_⟩
  · refine catchUpPhase_skip2 _ _ _ (catchUpStep_skip _ _ _ _ ?_)
      (catchUpStep_skip _ _ _ _ ?_)
    · simp only [SCHEDULES, List.get?, List.getD, Option.getD_some, schedTodayAt,
        slotSecs, hdt]
      intro hcon
      exact hcon.2 rfl
    · simp only [SCHEDULES, List.get?, List.getD, Option.getD_some, schedTodayAt,
        slotSecs, hdt]
      intro hcon
      exact hcon.2 rfl
  · unfold upcomingList upcomingFor minUpcoming
    rw [show List.range SCHEDULES.length = [0, 1] from rfl]
    simp only [List.map, List.get?, List.getD, Option.getD_some, SCHEDULES,
      schedTodayAt, next_dt_for, slotSecs, hdt, List.foldl, if_true]
    simp only [hsp] at h1 h2 ⊢
    split_ifs <;> simp only [Prod.mk.injEq, and_true] <;> omega

/-- **C7 witness**: suspension across day 5's instants, resume 13:53:20,
runs of 120 s and 90 s. -/
theorem claim_C7_witness :
    ∃ st, loopScheduler (env7 5 (5 * secPerDay + 50000) 120 90) 2 (st7 5 4 4)
        = .ok st ∧
      st.journal = [.sleepUntil (5 * secPerDay + 25200) "07:00",
                    .fire "07:00" (5 * secPerDay + 50000),
                    .fire "13:30" (5 * secPerDay + 50000 + 120)] ∧
      st.lastRun = [some 5, some 5] ∧
      catchUpPhase (env7 5 (5 * secPerDay + 50000) 120 90) st.time st
        = .ok (st, false) ∧
      minUpcoming (upcomingList st) = ((5 + 1) * secPerDay + 25200, 0) :=
  claim_C7_resume_fires_both 5 4 4 (5 * secPerDay + 50000) 120 90
    (by decide) (by decide) (by decide)

/-- **C8.** `measure_speed_python` (invoked with its defaults
`max_attempts=3, backoff=20`) retries up to 3 attempts; when all three
fail it raises the last error, having slept after each failed attempt:
`backoff_unit × attempt` (20, 40, 60) for a transiently-classified failure
(403 / ConfigRetrievalError in the message) and a fixed 5 seconds for any
other exception. -/
theorem claim_C8_retry_policy (oracle : Nat → AttemptResult) (m1 m2 m3 : String)
    (h1 : oracle 1 = .err m1) (h2 : oracle 2 = .err m2)
    (h3 : oracle 3 = .err m3) :
    measure_speed_python oracle 3 20 =
      ⟨.error (some m3),
       [attemptWait 20 1 m1, attemptWait 20 2 m2, attemptWait 20 3 m3], 3⟩ ∧
    attemptWait 20 1 m1 = (if transientErr m1 then 20 * 1 else 5) ∧
    attemptWait 20 2 m2 = (if transientErr m2 then 20 * 2 else 5) ∧
    attemptWait 20 3 m3 = (if transientErr m3 then 20 * 3 else 5) := by
  refine ⟨?_, rfl, rfl, rfl⟩
  unfold measure_speed_python
  rw [show (3 : Nat) = 2 + 1 from rfl, pyLoop_err _ _ _ _ _ _ _ h1,
      show (2 : Nat) = 1 + 1 from rfl, pyLoop_err _ _ _ _ _ _ _ h2,
      show (1 : Nat) = 0 + 1 from rfl, pyLoop_err _ _ _ _ _ _ _ h3,
      pyLoop_zero]
  simp

/-- **C8 witness**: a 403 on attempt 1 (wait 20 s = backoff × 1) and
generic timeouts on attempts 2 and 3 (fixed 5 s waits); the last error is
raised. -/
theorem claim_C8_witness :
    measure_speed_python c8oracle 3 20
      = ⟨.error (some "timed out"), [20, 5, 5], 3⟩ := by
  have H := claim_C8_retry_policy c8oracle
    "HTTP Error 403: Forbidden" "timed out" "timed out" rfl rfl rfl
  rw [H.1]
  have w1 : attemptWait 20 1 "HTTP Error 403: Forbidden" = 20 := by decide
  have w2 : attemptWait 20 2 "timed out" = 5 := by decide
  have w3 : attemptWait 20 3 "timed out" = 5 := by decide
  rw [w1, w2, w3]

/-- **C9.** `measure_speed` invokes the external-process fallback if and
only if the primary in-process strategy exhausted all 3 retry attempts
(every attempt raised); in particular a failure on attempt 1 followed by a
success on attempt 2 returns the primary result without the fallback. -/
theorem claim_C9_fallback_iff_exhausted (oracle : Nat → AttemptResult)
    (cli : Except String SpeedResults) :
    ((measure_speed oracle cli).usedFallback = true ↔
      (∃ m1, oracle 1 = .err m1) ∧ (∃ m2, oracle 2 = .err m2) ∧
      (∃ m3, oracle 3 = .err m3)) ∧
    (∀ m r, oracle 1 = .err m → oracle 2 = .ok r →
      measure_speed oracle cli = ⟨.ok r, false⟩) := by
  have key : ∀ m r, oracle 1 = .err m → oracle 2 = .ok r →
      measure_speed oracle cli = ⟨.ok r, false⟩ := by
    intro m r hm hr
    unfold measure_speed measure_speed_python
    rw [show (3 : Nat) = 2 + 1 from rfl, pyLoop_err _ _ _ _ _ _ _ hm,
        show (2 : Nat) = 1 + 1 from rfl, pyLoop_ok _ _ _ _ _ _ _ hr]
  refine ⟨?_, key⟩
  rcases o1 : oracle 1 with r1 | m1
  · have hms : measure_speed oracle cli = ⟨.ok r1, false⟩ := by
      unfold measure_speed measure_speed_python
      rw [show (3 : Nat) = 2 + 1 from rfl, pyLoop_ok _ _ _ _ _ _ _ o1]
    rw [hms]
    constructor
    · intro hfb; exact absurd hfb (by simp)
    · rintro ⟨⟨m1', hm1⟩, -, -⟩; exact absurd hm1 (by simp)
  · rcases o2 : oracle 2 with r2 | m2
    · have hms := key m1 r2 o1 o2
      rw [hms]
      constructor
      · intro hfb; exact absurd hfb (by simp)
      · rintro ⟨-, ⟨m2', hm2⟩, -⟩; exact absurd hm2 (by simp)
    · rcases o3 : oracle 3 with r3 | m3
      · have hms : measure_speed oracle cli = ⟨.ok r3, false⟩ := by
          unfold measure_speed measure_speed_python
          rw [show (3 : Nat) = 2 + 1 from rfl, pyLoop_err _ _ _ _ _ _ _ o1,
              show (2 : Nat) = 1 + 1 from rfl, pyLoop_err _ _ _ _ _ _ _ o2,
              show (1 : Nat) = 0 + 1 from rfl, pyLoop_ok _ _ _ _ _ _ _ o3]
        rw [hms]
        constructor
        · intro hfb; exact absurd hfb (by simp)
        · rintro ⟨-, -, ⟨m3', hm3⟩⟩; exact absurd hm3 (by simp)
      · have hms : measure_speed oracle cli = ⟨cli, true⟩ := by
          unfold measure_speed measure_speed_python
          rw [show (3 : Nat) = 2 + 1 from rfl, pyLoop_err _ _ _ _ _ _ _ o1,
              show (2 : Nat) = 1 + 1 from rfl, pyLoop_err _ _ _ _ _ _ _ o2,
              show (1 : Nat) = 0 + 1 from rfl, pyLoop_err _ _ _ _ _ _ _ o3,
              pyLoop_zero]
        rw [hms]
        constructor
        · intro _; exact ⟨⟨m1, rfl⟩, ⟨m2, rfl⟩, ⟨m3, rfl⟩⟩
        · intro _; rfl

/-- **C9 witness**: a transient 403 on attempt 1 followed by a success on
attempt 2 returns the primary result and never invokes the fallback. -/
theorem claim_C9_witness :
    measure_speed c9oracle (.error "speedtest CLI unavailable")
      = ⟨.ok r0, false⟩ :=
  (claim_C9_fallback_iff_exhausted c9oracle
    (.error "speedtest CLI unavailable")).2 "HTTP Error 403: Forbidden" r0 rfl rfl

/-- **C10.** For every measurement, the value submitted under the
internet-speed text field is exactly the rendered download figure followed
by `" Mbps"`, and the notes field carries the full notes text (the only
place upload and ping appear).  This holds for every mapping × hidden
combination of the v2 engine and for the earlier autorun variant's
`build_payload`. -/
theorem claim_C10_speed_field_is_download (r : SpeedResults) (ts : String) :
    (∀ m ∈ TEXT_MAPPING_TRIES, ∀ h ∈ HIDDEN_CANDIDATES,
      dictGet (assemblePayload defaultConfig m h r ts)
          (entryTextId m.Q7_internet_speed)
        = some (qstr r.download ++ " Mbps") ∧
      dictGet (assemblePayload defaultConfig m h r ts) (entryTextId m.Q8_notes)
        = some (notesText defaultConfig r ts)) ∧
    (∃ p, Autorun.build_payload defaultConfig r ts = .ok p ∧
      dictGet p (Autorun.entryId "internet_speed")
        = some (qstr r.download ++ " Mbps") ∧
      dictGet p (Autorun.entryId "notes")
        = some (notesText defaultConfig r ts)) := by
  constructor
  · intro m hm h hh
    simp only [TEXT_MAPPING_TRIES, List.mem_cons, List.not_mem_nil, or_false] at hm
    simp only [HIDDEN_CANDIDATES, List.mem_cons, List.not_mem_nil, or_false] at hh
    rcases hm with rfl | rfl | rfl <;> rcases hh with rfl | rfl <;> exact ⟨rfl, rfl⟩
  · exact ⟨_, rfl, rfl, rfl⟩

/-- **C10 witness**: the second ranked mapping with the `fbzx` hidden set
and the sample measurement submit the download figure in its speed field
(`entry.556952249` = `X_D` under that mapping). -/
theorem claim_C10_witness :
    dictGet (assemblePayload defaultConfig ⟨"X_A", "X_B", "X_D", "X_C"⟩
        [("fbzx", "8122308104194036559")] r0 "2026-01-02 13:30:00")
      (entryTextId "X_D") = some (qstr r0.download ++ " Mbps") ∧
    dictGet (assemblePayload defaultConfig ⟨"X_A", "X_B", "X_D", "X_C"⟩
        [("fbzx", "8122308104194036559")] r0 "2026-01-02 13:30:00")
      (entryTextId "X_C")
      = some (notesText defaultConfig r0 "2026-01-02 13:30:00") :=
  (claim_C10_speed_field_is_download r0 "2026-01-02 13:30:00").1
    ⟨"X_A", "X_B", "X_D", "X_C"⟩ (by simp [TEXT_MAPPING_TRIES])
    [("fbzx", "8122308104194036559")] (by simp [HIDDEN_CANDIDATES])
